import Mathlib

/-!
Shallow embedding of the `ai-support-analyzer` repository
(`src/generate.py` and `src/analyze.py`).

Both scripts share one pattern: a hard-coded chain of three LLM
providers tried in order inside `try/except` blocks, a driver loop that
rewrites one JSON dataset file after every processed item, and a fixed
`time.sleep(2)` pacing call between items.

Modelling conventions:
* Python strings that the scripts inspect character by character are
  `List Char`.
* `json.loads` is modelled by an executable recursive-descent parser
  `json_loads` over a `Json` value type (objects, arrays, strings,
  integers, booleans, null; floats and unicode escapes are outside
  the subset exercised by the scripts' control flow).
* A provider call is an `Attempt`: it either raises (any exception
  inside the `try` block, carrying the exception message) or returns a
  raw text.  The payload string only flows into the provider call, so
  quantifying over `Attempt`s quantifies over all payloads.
* The `print` calls of the chains are modelled as a trace of `Ev`
  events; an `attempt…` event occurs in the trace exactly when the
  corresponding provider is invoked.
* The chains are total Lean functions: no exception escapes to the
  caller, mirroring the final bare `except` of each chain.
-/

/-- Model of a Python value produced by `json.loads`. -/
inductive Json where
  | jnull : Json
  | jbool : Bool → Json
  | jint : Int → Json
  | jstr : String → Json
  | jarr : List Json → Json
  | jobj : List (String × Json) → Json

mutual

/-- Decidable equality on `Json` values. -/
def Json.decEq : (a b : Json) → Decidable (a = b)
  | .jnull, .jnull => isTrue rfl
  | .jbool a, .jbool b =>
    if h : a = b then isTrue (h ▸ rfl)
    else isFalse (fun hh => h (Json.jbool.inj hh))
  | .jint a, .jint b =>
    if h : a = b then isTrue (h ▸ rfl)
    else isFalse (fun hh => h (Json.jint.inj hh))
  | .jstr a, .jstr b =>
    if h : a = b then isTrue (h ▸ rfl)
    else isFalse (fun hh => h (Json.jstr.inj hh))
  | .jarr xs, .jarr ys =>
    match Json.decEqArr xs ys with
    | isTrue h => isTrue (h ▸ rfl)
    | isFalse h => isFalse (fun hh => h (Json.jarr.inj hh))
  | .jobj xs, .jobj ys =>
    match Json.decEqObj xs ys with
    | isTrue h => isTrue (h ▸ rfl)
    | isFalse h => isFalse (fun hh => h (Json.jobj.inj hh))
  | .jnull, .jbool _ => isFalse (fun h => Json.noConfusion h)
  | .jnull, .jint _ => isFalse (fun h => Json.noConfusion h)
  | .jnull, .jstr _ => isFalse (fun h => Json.noConfusion h)
  | .jnull, .jarr _ => isFalse (fun h => Json.noConfusion h)
  | .jnull, .jobj _ => isFalse (fun h => Json.noConfusion h)
  | .jbool _, .jnull => isFalse (fun h => Json.noConfusion h)
  | .jbool _, .jint _ => isFalse (fun h => Json.noConfusion h)
  | .jbool _, .jstr _ => isFalse (fun h => Json.noConfusion h)
  | .jbool _, .jarr _ => isFalse (fun h => Json.noConfusion h)
  | .jbool _, .jobj _ => isFalse (fun h => Json.noConfusion h)
  | .jint _, .jnull => isFalse (fun h => Json.noConfusion h)
  | .jint _, .jbool _ => isFalse (fun h => Json.noConfusion h)
  | .jint _, .jstr _ => isFalse (fun h => Json.noConfusion h)
  | .jint _, .jarr _ => isFalse (fun h => Json.noConfusion h)
  | .jint _, .jobj _ => isFalse (fun h => Json.noConfusion h)
  | .jstr _, .jnull => isFalse (fun h => Json.noConfusion h)
  | .jstr _, .jbool _ => isFalse (fun h => Json.noConfusion h)
  | .jstr _, .jint _ => isFalse (fun h => Json.noConfusion h)
  | .jstr _, .jarr _ => isFalse (fun h => Json.noConfusion h)
  | .jstr _, .jobj _ => isFalse (fun h => Json.noConfusion h)
  | .jarr _, .jnull => isFalse (fun h => Json.noConfusion h)
  | .jarr _, .jbool _ => isFalse (fun h => Json.noConfusion h)
  | .jarr _, .jint _ => isFalse (fun h => Json.noConfusion h)
  | .jarr _, .jstr _ => isFalse (fun h => Json.noConfusion h)
  | .jarr _, .jobj _ => isFalse (fun h => Json.noConfusion h)
  | .jobj _, .jnull => isFalse (fun h => Json.noConfusion h)
  | .jobj _, .jbool _ => isFalse (fun h => Json.noConfusion h)
  | .jobj _, .jint _ => isFalse (fun h => Json.noConfusion h)
  | .jobj _, .jstr _ => isFalse (fun h => Json.noConfusion h)
  | .jobj _, .jarr _ => isFalse (fun h => Json.noConfusion h)

/-- Decidable equality on lists of `Json` values. -/
def Json.decEqArr : (xs ys : List Json) → Decidable (xs = ys)
  | [], [] => isTrue rfl
  | [], _ :: _ => isFalse (fun h => List.noConfusion h)
  | _ :: _, [] => isFalse (fun h => List.noConfusion h)
  | x :: xs, y :: ys =>
    match Json.decEq x y with
    | isFalse h => isFalse (fun hh => h (List.cons.inj hh).1)
    | isTrue h1 =>
      match Json.decEqArr xs ys with
      | isTrue h2 => isTrue (by rw [h1, h2])
      | isFalse h2 => isFalse (fun hh => h2 (List.cons.inj hh).2)

/-- Decidable equality on lists of `Json` object members. -/
def Json.decEqObj : (xs ys : List (String × Json)) → Decidable (xs = ys)
  | [], [] => isTrue rfl
  | [], _ :: _ => isFalse (fun h => List.noConfusion h)
  | _ :: _, [] => isFalse (fun h => List.noConfusion h)
  | (k, v) :: xs, (k', v') :: ys =>
    if hk : k = k' then
      match Json.decEq v v' with
      | isFalse h =>
        isFalse (fun hh => h (congrArg Prod.snd (List.cons.inj hh).1))
      | isTrue h1 =>
        match Json.decEqObj xs ys with
        | isTrue h2 => isTrue (by rw [hk, h1, h2])
        | isFalse h2 => isFalse (fun hh => h2 (List.cons.inj hh).2)
    else
      isFalse (fun hh => hk (congrArg Prod.fst (List.cons.inj hh).1))

end

instance : DecidableEq Json := Json.decEq

/-- Whitespace stripped by Python `str.strip()` (ASCII subset). -/
def pyIsSpace (c : Char) : Bool :=
  c = ' ' || c = '\t' || c = '\n' || c = '\r' || c = '\x0b' || c = '\x0c'

/-- Model of Python `str.strip()`: drop leading and trailing whitespace. -/
def pyStrip (s : List Char) : List Char :=
  ((s.dropWhile pyIsSpace).reverse.dropWhile pyIsSpace).reverse

/-- Model of Python `str.find(c)`: index of the first occurrence of `c`,
`none` standing for Python's `-1`. -/
def pyFind (c : Char) : List Char → Option Nat
  | [] => none
  | x :: rest => if x = c then some 0 else (pyFind c rest).map (· + 1)

/-- Model of Python `str.rfind(c)`: index of the last occurrence of `c`,
`none` standing for Python's `-1`. -/
def pyRfind (c : Char) : List Char → Option Nat
  | [] => none
  | x :: rest =>
    match pyRfind c rest with
    | some j => some (j + 1)
    | none => if x = c then some 0 else none

/-- The JSON extraction of `analyze.py` lines 60-68: slice from the first
`'\x7b'` to the last `'\x7d'` inclusive (`result_text[start_idx:end_idx+1]`),
falling back to the raw text when either brace is absent. -/
def braceExtract (s : List Char) : List Char :=
  match pyFind '\x7b' s, pyRfind '\x7d' s with
  | some i, some j => (s.drop i).take (j + 1 - i)
  | _, _ => s

/-- JSON whitespace skipping used by the `json_loads` model. -/
def skipWs (s : List Char) : List Char :=
  s.dropWhile (fun c => c = ' ' || c = '\t' || c = '\n' || c = '\r')

/-- Escape characters understood by the string parser of `json_loads`. -/
def jsonEsc (c : Char) : Option Char :=
  if c = '"' then some '"'
  else if c = '\\' then some '\\'
  else if c = '/' then some '/'
  else if c = 'n' then some '\n'
  else if c = 't' then some '\t'
  else if c = 'r' then some '\r'
  else none

/-- Parse the body of a JSON string after the opening quote; returns the
decoded characters and the rest of the input after the closing quote. -/
def parseStrBody : List Char → Option (List Char × List Char)
  | [] => none
  | '"' :: rest => some ([], rest)
  | '\\' :: e :: rest =>
    match jsonEsc e with
    | some c => (parseStrBody rest).map (fun p => (c :: p.1, p.2))
    | none => none
  | c :: rest => (parseStrBody rest).map (fun p => (c :: p.1, p.2))

/-- Numeric value of a list of decimal digits. -/
def digitsToNat (ds : List Char) : Nat :=
  ds.foldl (fun acc c => acc * 10 + (c.toNat - '0'.toNat)) 0

mutual

/-- Fuelled recursive-descent parser for one JSON value; returns the value
and the unconsumed rest. -/
def parseVal : Nat → List Char → Option (Json × List Char)
  | 0, _ => none
  | f + 1, s =>
    match skipWs s with
    | 'n' :: 'u' :: 'l' :: 'l' :: r => some (.jnull, r)
    | 't' :: 'r' :: 'u' :: 'e' :: r => some (.jbool true, r)
    | 'f' :: 'a' :: 'l' :: 's' :: 'e' :: r => some (.jbool false, r)
    | '"' :: r => (parseStrBody r).map (fun p => (.jstr (String.mk p.1), p.2))
    | '[' :: r =>
      (match skipWs r with
       | ']' :: r2 => some (.jarr [], r2)
       | _ => (parseArrItems f r).map (fun p => (.jarr p.1, p.2)))
    | '\x7b' :: r =>
      (match skipWs r with
       | '\x7d' :: r2 => some (.jobj [], r2)
       | _ => (parseObjItems f r).map (fun p => (.jobj p.1, p.2)))
    | '-' :: r =>
      let ds := r.takeWhile Char.isDigit
      if ds.isEmpty then none
      else some (.jint (-(digitsToNat ds : Int)), r.dropWhile Char.isDigit)
    | c :: r =>
      if c.isDigit then
        let ds := (c :: r).takeWhile Char.isDigit
        some (.jint (digitsToNat ds : Int), (c :: r).dropWhile Char.isDigit)
      else none
    | [] => none

/-- Parse one or more comma-separated array elements up to `']'`. -/
def parseArrItems : Nat → List Char → Option (List Json × List Char)
  | 0, _ => none
  | f + 1, s =>
    match parseVal f s with
    | none => none
    | some (v, r) =>
      match skipWs r with
      | ',' :: r2 =>
        (parseArrItems f r2).map (fun p => (v :: p.1, p.2))
      | ']' :: r2 => some ([v], r2)
      | _ => none

/-- Parse one or more comma-separated `"key": value` members up to `'\x7d'`. -/
def parseObjItems : Nat → List Char → Option (List (String × Json) × List Char)
  | 0, _ => none
  | f + 1, s =>
    match skipWs s with
    | '"' :: r =>
      (match parseStrBody r with
       | none => none
       | some (key, r1) =>
         match skipWs r1 with
         | ':' :: r2 =>
           (match parseVal f r2 with
            | none => none
            | some (v, r3) =>
              match skipWs r3 with
              | ',' :: r4 =>
                (parseObjItems f r4).map (fun p => ((String.mk key, v) :: p.1, p.2))
              | '\x7d' :: r4 => some ([(String.mk key, v)], r4)
              | _ => none)
         | _ => none)
    | _ => none

end

/-- Model of Python `json.loads`: parse one JSON document, requiring that
nothing but whitespace remains; `none` models a raised `JSONDecodeError`. -/
def json_loads (s : List Char) : Option Json :=
  match parseVal (s.length + 1) s with
  | some (j, rest) => if (skipWs rest).isEmpty then some j else none
  | none => none

/-- Outcome of one provider call: the `try` body either raises an
exception somewhere (carrying the exception text `e`) or reaches the
point where the raw response text is in hand. -/
inductive Attempt where
  | raises : String → Attempt
  | returns : List Char → Attempt

/-- Trace events modelling the `print` calls of the two fallback chains.
An `attempt…` event occurs exactly when the corresponding provider's
`try` block is entered. -/
inductive Ev where
  | attemptCohere
  | attemptGemini
  | attemptGroq
  | cohereFailed
  | geminiFailed
  | groqFailed
  | allFailed
deriving DecidableEq

/-- The fixed default record returned by `analyze_chat_with_fallback`
when all three providers fail (`analyze.py` line 116). -/
def analyzeSentinel : Json :=
  .jobj [("intent", .jstr "error"), ("satisfaction", .jstr "neutral"),
         ("quality_score", .jint 0), ("agent_mistakes", .jarr [])]

/-- Step 3 of `analyze.py` (lines 101-116): Groq.  `json.loads` is applied
to the message content directly (no strip, no brace extraction); on any
failure the sentinel record is returned. -/
def analyzeStep3 (groq : Attempt) : Json × List Ev :=
  match groq with
  | .raises _ => (analyzeSentinel, [.attemptGroq, .allFailed])
  | .returns raw =>
    match json_loads raw with
    | some j => (j, [.attemptGroq])
    | none => (analyzeSentinel, [.attemptGroq, .allFailed])

/-- Step 2 of `analyze.py` (lines 75-99): Google Gemini.  `json.loads` is
applied to `response.text` directly; a parse failure is caught by the
same `except` as an API failure and falls through to Groq. -/
def analyzeStep2 (gemini groq : Attempt) : Json × List Ev :=
  match gemini with
  | .raises _ =>
    let r := analyzeStep3 groq
    (r.1, .attemptGemini :: .geminiFailed :: r.2)
  | .returns raw =>
    match json_loads raw with
    | some j => (j, [.attemptGemini])
    | none =>
      let r := analyzeStep3 groq
      (r.1, .attemptGemini :: .geminiFailed :: r.2)

/-- `analyze.py` lines 26-116, `analyze_chat_with_fallback`: Cohere, then
Gemini, then Groq.  The Cohere step strips the response text, slices it
with `braceExtract` and parses the slice; any exception (API call or
`json.loads`) falls through to step 2.  The three `Attempt`s stand for
the providers' responses to the one chat payload of the call. -/
def analyze_chat_with_fallback (cohere gemini groq : Attempt) : Json × List Ev :=
  match cohere with
  | .raises _ =>
    let r := analyzeStep2 gemini groq
    (r.1, .attemptCohere :: .cohereFailed :: r.2)
  | .returns raw =>
    match json_loads (braceExtract (pyStrip raw)) with
    | some j => (j, [.attemptCohere])
    | none =>
      let r := analyzeStep2 gemini groq
      (r.1, .attemptCohere :: .cohereFailed :: r.2)

/-- The placeholder dialogue returned by `generate_single_chat_with_fallback`
when all three providers fail (`generate.py` line 83). -/
def genSentinel : List Char :=
  "Client: Error generating chat.\nAgent: Please check API keys.".toList

/-- Step 3 of `generate.py` (lines 67-83): Cohere.  The stripped text is
returned unconditionally (no emptiness check); on exception the
placeholder dialogue is returned. -/
def generateStep3 (cohere : Attempt) : List Char × List Ev :=
  match cohere with
  | .raises _ => (genSentinel, [.attemptCohere, .allFailed])
  | .returns raw => (pyStrip raw, [.attemptCohere])

/-- Step 2 of `generate.py` (lines 52-65): Groq.  The stripped message
content is returned unconditionally (no emptiness check). -/
def generateStep2 (groq cohere : Attempt) : List Char × List Ev :=
  match groq with
  | .raises _ =>
    let r := generateStep3 cohere
    (r.1, .attemptGroq :: .groqFailed :: r.2)
  | .returns raw => (pyStrip raw, [.attemptGroq])

/-- `generate.py` lines 25-83, `generate_single_chat_with_fallback`:
Gemini, then Groq, then Cohere.  The Gemini step returns its stripped
text only when `response and response.text` is truthy (a falsy/empty
response falls through to Groq silently, with no failure print). -/
def generate_single_chat_with_fallback (gemini groq cohere : Attempt) :
    List Char × List Ev :=
  match gemini with
  | .raises _ =>
    let r := generateStep2 groq cohere
    (r.1, .attemptGemini :: .geminiFailed :: r.2)
  | .returns raw =>
    if raw.isEmpty then
      let r := generateStep2 groq cohere
      (r.1, .attemptGemini :: r.2)
    else (pyStrip raw, [.attemptGemini])

/-- One record of the dataset file, as built by `generate.py` lines
129-133 and consumed by `analyze.py` (fields `id`, `scenario_type`,
`dialogue`). -/
structure DialogueRecord where
  id : Nat
  scenario_type : List Char
  dialogue : List Char
deriving DecidableEq

/-- A dataset record after `analyze.py` line 142 added the `analysis`
field (`item['analysis'] = analysis`). -/
structure EnrichedRecord where
  id : Nat
  scenario_type : List Char
  dialogue : List Char
  analysis : Json
deriving DecidableEq

/-- `item['analysis'] = analysis` (`analyze.py` line 142). -/
def enrich (d : DialogueRecord) (a : Json) : EnrichedRecord :=
  ⟨d.id, d.scenario_type, d.dialogue, a⟩

/-- Provider responses per item index (network nondeterminism).  For the
analyzer the components are (Cohere, Gemini, Groq); for the generator
they are (Gemini, Groq, Cohere) — each chain's own order. -/
abbrev ProviderEnv := Nat → Attempt × Attempt × Attempt

/-- The analysis result of item number `i` under environment `env`. -/
def analysisOf (env : ProviderEnv) (i : Nat) : Json :=
  (analyze_chat_with_fallback (env i).1 (env i).2.1 (env i).2.2).1

/-- The loop of `analyze.py` lines 138-150: per item, run the chain,
attach the analysis, append, and rewrite the whole output file.  Returns
the successive contents written to `analyzed_dataset.json`, one entry
per processed item. -/
def analyzerLoop (env : ProviderEnv) :
    Nat → List DialogueRecord → List EnrichedRecord → List (List EnrichedRecord)
  | _, [], _ => []
  | i, item :: rest, acc =>
    let acc' := acc ++ [enrich item (analysisOf env i)]
    acc' :: analyzerLoop env (i + 1) rest acc'

/-- The files touched by `analyze.py`: `dataset.json` (input) and
`analyzed_dataset.json` (output); `none` models an absent file, `some`
the parsed contents of a well-formed file. -/
structure AnalyzeFS where
  dataset : Option (List DialogueRecord)
  analyzed : Option (List EnrichedRecord)
deriving DecidableEq

/-- Observable outcome of one `analyze.py` run: final files, the list of
successive output-file writes, and whether the run exited through the
`FileNotFoundError` branch of lines 131-133. -/
structure AnalyzerRun where
  fs : AnalyzeFS
  writes : List (List EnrichedRecord)
  aborted : Bool
deriving DecidableEq

/-- The `__main__` block of `analyze.py` (lines 119-152).  Lines 122-125
remove `analyzed_dataset.json` whenever it exists (removing an absent
file and keeping it are the same state, so the `os.path.exists` guard
collapses to setting the file absent); only then do lines 128-133 try to
open `dataset.json`, exiting if it is missing; otherwise the per-item
loop runs. -/
def analyzerMain (env : ProviderEnv) (fs : AnalyzeFS) : AnalyzerRun :=
  let fs1 : AnalyzeFS := { dataset := fs.dataset, analyzed := none }
  match fs1.dataset with
  | none => { fs := fs1, writes := [], aborted := true }
  | some ds =>
    let ws := analyzerLoop env 0 ds []
    { fs := { dataset := fs1.dataset, analyzed := ws.getLast? },
      writes := ws, aborted := false }

/-- The fixed scenario list of `generate.py` lines 98-119. -/
def scenarios : List (List Char) :=
  ["1. Refund request. Agent makes a mistake. Client is angry.".toList,
   "2. Technical error. Agent gives useless links. Sarcasm.".toList,
   "3. Tariff question. Successful case. Satisfied client.".toList,
   "4. Payment issue. Double charge. Perfect resolution.".toList,
   "5. Account access. Password reset fails. Agent ignores issue.".toList,
   "6. Other. Physical address request. Quick response.".toList,
   "7. Technical error. App crashes. Rude agent.".toList,
   "8. Refund request. Wrong item. Exception made.".toList,
   "9. Tariff question. Discount request. Free month offered.".toList,
   "10. Payment issue. Card declined. Incorrect info given.".toList,
   "11. Account access. Hacked account. Escalation.".toList,
   "12. Technical error. Slow site. Agent is dismissive.".toList,
   "13. Other. Account deletion. Manipulation attempt.".toList,
   "14. Refund request. Partial refund. Calculation error.".toList,
   "15. Tariff question. Hidden fees. Sarcasm.".toList,
   "16. Payment issue. Promo code fail. Manual fix.".toList,
   "17. Account access. 2FA issue. Unnecessary personal info.".toList,
   "18. Technical error. Video issue. Workaround found.".toList,
   "19. Refund request. Policy denial. Polite explanation.".toList,
   "20. Tariff question. Upgrade plan. Quick fuss-free fix.".toList]

/-- The dialogue generated for item index `i` under environment `env`. -/
def dialogueOf (env : ProviderEnv) (i : Nat) : List Char :=
  (generate_single_chat_with_fallback (env i).1 (env i).2.1 (env i).2.2).1

/-- The loop of `generate.py` lines 124-138: per scenario, run the chain,
append the record `{id: i+1, scenario_type, dialogue}`, rewrite
`dataset.json`, then `time.sleep(2)`.  Returns the successive file
writes and the sleep durations (in seconds). -/
def generatorLoop (env : ProviderEnv) :
    Nat → List (List Char) → List DialogueRecord →
    List (List DialogueRecord) × List Nat
  | _, [], _ => ([], [])
  | i, sc :: rest, acc =>
    let acc' := acc ++ [⟨i + 1, sc, dialogueOf env i⟩]
    let r := generatorLoop env (i + 1) rest acc'
    (acc' :: r.1, 2 :: r.2)

/-- The file touched by `generate.py`: `dataset.json`. -/
structure GenFS where
  dataset : Option (List DialogueRecord)
deriving DecidableEq

/-- Observable outcome of one `generate.py` run: final file, successive
file writes, and the sleep durations performed between items. -/
structure GeneratorRun where
  fs : GenFS
  writes : List (List DialogueRecord)
  sleeps : List Nat
deriving DecidableEq

/-- `main()` of `generate.py` (lines 86-140): lines 93-96 remove
`dataset.json` whenever it exists, then the loop processes the fixed
scenario list.  There is no abort path: the run always processes all
scenarios regardless of the initial file state, which is therefore
ignored by the model (the deletion makes it irrelevant). -/
def generatorMain (env : ProviderEnv) (_fs : GenFS) : GeneratorRun :=
  let r := generatorLoop env 0 scenarios []
  { fs := { dataset := r.1.getLast? }, writes := r.1, sleeps := r.2 }

/-- Spec-side notion: `i` is the index of the first occurrence of `c` in
`s`. -/
def IsFirstIdx (c : Char) (s : List Char) (i : Nat) : Prop :=
  s.get? i = some c ∧ ∀ k, k < i → s.get? k ≠ some c

/-- Spec-side notion: `j` is the index of the last occurrence of `c` in
`s`. -/
def IsLastIdx (c : Char) (s : List Char) (j : Nat) : Prop :=
  s.get? j = some c ∧ ∀ k, k < s.length → j < k → s.get? k ≠ some c

/-- Field lookup in a list of JSON object members. -/
def lookupField (k : String) : List (String × Json) → Option Json
  | [] => none
  | (k', v) :: rest => if k' = k then some v else lookupField k rest

/-- Field lookup in a JSON value (object members only). -/
def jLookup (k : String) (j : Json) : Option Json :=
  match j with
  | .jobj fields => lookupField k fields
  | _ => none

/-- The value the analyzer's Cohere step would return for attempt `a`:
`some j` iff the call raised nothing and the stripped, brace-extracted
text parses as JSON `j`; `none` means this step falls through. -/
def analyzeCohereOk (a : Attempt) : Option Json :=
  match a with
  | .raises _ => none
  | .returns raw => json_loads (braceExtract (pyStrip raw))

/-- The value the analyzer's Gemini or Groq step would return for
attempt `a`: the raw text must parse as JSON directly. -/
def analyzeDirectOk (a : Attempt) : Option Json :=
  match a with
  | .raises _ => none
  | .returns raw => json_loads raw

/-- The value the generator's Gemini step would return: the call must
not raise and the raw text must be truthy (non-empty). -/
def genGeminiOk (a : Attempt) : Option (List Char) :=
  match a with
  | .raises _ => none
  | .returns raw => if raw.isEmpty then none else some (pyStrip raw)

/-- The value the generator's Groq or Cohere step would return: any
non-raising call succeeds, with no emptiness check. -/
def genTailOk (a : Attempt) : Option (List Char) :=
  match a with
  | .raises _ => none
  | .returns raw => some (pyStrip raw)

/-- The enriched records for the items of `ds`, starting at index `i`. -/
def enrichFrom (env : ProviderEnv) : Nat → List DialogueRecord → List EnrichedRecord
  | _, [] => []
  | i, d :: rest => enrich d (analysisOf env i) :: enrichFrom env (i + 1) rest

/-- The generated records for the scenarios of `scs`, starting at `i`. -/
def genRecordsFrom (env : ProviderEnv) : Nat → List (List Char) → List DialogueRecord
  | _, [] => []
  | i, sc :: rest => ⟨i + 1, sc, dialogueOf env i⟩ :: genRecordsFrom env (i + 1) rest

/-- A provider environment in which every call raises. -/
def envAllFail : ProviderEnv := fun _ => (.raises "error", .raises "error", .raises "error")

/-- A provider environment in which every failure carries an explicit
rate-limit signal in the exception text. -/
def envRateLimited : ProviderEnv := fun _ =>
  (.raises "429 Too Many Requests", .raises "429 Too Many Requests",
   .raises "429 Too Many Requests")

/-- A sample dataset record. -/
def sampleRecord : DialogueRecord := ⟨1, [], "Client: hi\nAgent: hello".toList⟩

/-- A sample previously persisted enriched record (contents arbitrary). -/
def oldEnriched : EnrichedRecord := ⟨7, [], [], Json.jnull⟩

/-- A well-formed analysis payload as a provider would return it. -/
def validAnalysisText : List Char :=
  ("\x7b\"intent\": \"other\", \"satisfaction\": \"neutral\", " ++
    "\"quality_score\": 3, \"agent_mistakes\": []\x7d").toList

/-- Environment modelling an absent primary-provider API key: the first
provider of the chain raises inside its `try` block (the client
constructor or call fails), while the second provider responds
normally. -/
def envPrimaryKeyMissing : ProviderEnv := fun _ =>
  (.raises "api_key is None", .returns validAnalysisText, .raises "error")

theorem pyFind_of_first {c : Char} {s : List Char} {i : Nat}
    (h : IsFirstIdx c s i) : pyFind c s = some i := by
  induction s generalizing i with
  | nil => simp [IsFirstIdx] at h
  | cons x rest ih =>
    rcases h with ⟨h1, h2⟩
    by_cases hx : x = c
    · subst hx
      cases i with
      | zero => simp [pyFind]
      | succ n =>
        have hfalse : False := by simpa using h2 0 (Nat.succ_pos n)
        exact hfalse.elim
    · cases i with
      | zero => simp only [List.get?_cons_zero, Option.some.injEq] at h1; exact absurd h1 hx
      | succ n =>
        have hrest : IsFirstIdx c rest n := by
          refine ⟨by simpa using h1, fun k hk => ?_⟩
          have := h2 (k + 1) (Nat.succ_lt_succ hk)
          simpa using this
        simp [pyFind, hx, ih hrest]

theorem pyFind_of_not_mem {c : Char} {s : List Char}
    (h : c ∉ s) : pyFind c s = none := by
  induction s with
  | nil => rfl
  | cons x rest ih =>
    have hx : ¬ x = c := fun hh => h (hh ▸ List.mem_cons_self x rest)
    have hr : c ∉ rest := fun hh => h (List.mem_cons_of_mem x hh)
    simp [pyFind, hx, ih hr]

theorem pyRfind_of_not_mem {c : Char} {s : List Char}
    (h : c ∉ s) : pyRfind c s = none := by
  induction s with
  | nil => rfl
  | cons x rest ih =>
    have hx : ¬ x = c := fun hh => h (hh ▸ List.mem_cons_self x rest)
    have hr : c ∉ rest := fun hh => h (List.mem_cons_of_mem x hh)
    simp [pyRfind, hx, ih hr]

theorem pyRfind_of_last {c : Char} {s : List Char} {j : Nat}
    (h : IsLastIdx c s j) : pyRfind c s = some j := by
  induction s generalizing j with
  | nil => simp [IsLastIdx] at h
  | cons x rest ih =>
    rcases h with ⟨h1, h2⟩
    by_cases hr : c ∈ rest
    · rcases List.mem_iff_get?.mp hr with ⟨m, hm⟩
      have hmlen : m < rest.length := by
        by_contra hge
        rw [List.get?_eq_none.mpr (Nat.le_of_not_lt hge)] at hm
        exact Option.noConfusion hm
      cases j with
      | zero =>
        exact absurd (by simpa using hm)
          (h2 (m + 1) (by simpa using Nat.succ_lt_succ hmlen) (Nat.succ_pos m))
      | succ n =>
        have hlast : IsLastIdx c rest n := by
          refine ⟨by simpa using h1, fun k hk hnk => ?_⟩
          have := h2 (k + 1) (by simpa using Nat.succ_lt_succ hk) (Nat.succ_lt_succ hnk)
          simpa using this
        simp [pyRfind, ih hlast]
    · cases j with
      | zero =>
        have hx : x = c := by simpa using h1
        simp [pyRfind, pyRfind_of_not_mem hr, hx]
      | succ n =>
        have : c ∈ rest := List.mem_iff_get?.mpr ⟨n, by simpa using h1⟩
        exact absurd this hr

theorem analyzerLoop_length (env : ProviderEnv) (ds : List DialogueRecord) :
    ∀ i acc, (analyzerLoop env i ds acc).length = ds.length := by
  induction ds with
  | nil => intro i acc; rfl
  | cons d rest ih => intro i acc; simp [analyzerLoop, ih]

theorem analyzerLoop_get? (env : ProviderEnv) (ds : List DialogueRecord) :
    ∀ i acc k, k < ds.length →
      (analyzerLoop env i ds acc).get? k =
        some (acc ++ enrichFrom env i (ds.take (k + 1))) := by
  induction ds with
  | nil => intro i acc k h; exact absurd h (Nat.not_lt_zero k)
  | cons d rest ih =>
    intro i acc k h
    cases k with
    | zero => simp [analyzerLoop, enrichFrom]
    | succ n =>
      have hn : n < rest.length := Nat.lt_of_succ_lt_succ h
      have hih := ih (i + 1) (acc ++ [enrich d (analysisOf env i)]) n hn
      have hstep : analyzerLoop env i (d :: rest) acc =
          (acc ++ [enrich d (analysisOf env i)]) ::
            analyzerLoop env (i + 1) rest (acc ++ [enrich d (analysisOf env i)]) := rfl
      rw [hstep, List.get?_cons_succ, hih, List.take_succ_cons]
      simp [enrichFrom, List.append_assoc]

theorem analyzerLoop_final (env : ProviderEnv) (ds : List DialogueRecord)
    (h : ds ≠ []) (i : Nat) (acc : List EnrichedRecord) :
    (analyzerLoop env i ds acc).getLast? = some (acc ++ enrichFrom env i ds) := by
  have hlen : 0 < ds.length := List.length_pos.mpr h
  have hl := analyzerLoop_length env ds i acc
  rw [List.getLast?_eq_getElem?, ← List.get?_eq_getElem?, hl,
    analyzerLoop_get? env ds i acc (ds.length - 1) (Nat.sub_lt hlen Nat.one_pos),
    Nat.sub_add_cancel (Nat.one_le_iff_ne_zero.mpr (Nat.pos_iff_ne_zero.mp hlen)),
    List.take_length]

theorem generatorLoop_length (env : ProviderEnv) (scs : List (List Char)) :
    ∀ i acc, ((generatorLoop env i scs acc).1).length = scs.length := by
  induction scs with
  | nil => intro i acc; rfl
  | cons sc rest ih => intro i acc; simp [generatorLoop, ih]

theorem generatorLoop_sleeps (env : ProviderEnv) (scs : List (List Char)) :
    ∀ i acc, (generatorLoop env i scs acc).2 = List.replicate scs.length 2 := by
  induction scs with
  | nil => intro i acc; rfl
  | cons sc rest ih =>
    intro i acc
    simp [generatorLoop, ih, List.replicate_succ]

theorem generatorLoop_get? (env : ProviderEnv) (scs : List (List Char)) :
    ∀ i acc k, k < scs.length →
      ((generatorLoop env i scs acc).1).get? k =
        some (acc ++ genRecordsFrom env i (scs.take (k + 1))) := by
  induction scs with
  | nil => intro i acc k h; exact absurd h (Nat.not_lt_zero k)
  | cons sc rest ih =>
    intro i acc k h
    cases k with
    | zero => simp [generatorLoop, genRecordsFrom]
    | succ n =>
      have hn : n < rest.length := Nat.lt_of_succ_lt_succ h
      have hih := ih (i + 1) (acc ++ [⟨i + 1, sc, dialogueOf env i⟩]) n hn
      have hstep : (generatorLoop env i (sc :: rest) acc).1 =
          (acc ++ [⟨i + 1, sc, dialogueOf env i⟩]) ::
            (generatorLoop env (i + 1) rest (acc ++ [⟨i + 1, sc, dialogueOf env i⟩])).1 := rfl
      rw [hstep, List.get?_cons_succ, hih, List.take_succ_cons]
      simp [genRecordsFrom, List.append_assoc]

theorem analyzeStep3_ok {c : Attempt} {j : Json} (h : analyzeDirectOk c = some j) :
    analyzeStep3 c = (j, [.attemptGroq]) := by
  cases c with
  | raises m => simp [analyzeDirectOk] at h
  | returns raw =>
    simp only [analyzeDirectOk] at h
    simp [analyzeStep3, h]

theorem analyzeStep3_fail {c : Attempt} (h : analyzeDirectOk c = none) :
    analyzeStep3 c = (analyzeSentinel, [.attemptGroq, .allFailed]) := by
  cases c with
  | raises m => rfl
  | returns raw =>
    simp only [analyzeDirectOk] at h
    simp [analyzeStep3, h]

theorem analyzeStep2_ok {b : Attempt} {j : Json} (h : analyzeDirectOk b = some j)
    (c : Attempt) : analyzeStep2 b c = (j, [.attemptGemini]) := by
  cases b with
  | raises m => simp [analyzeDirectOk] at h
  | returns raw =>
    simp only [analyzeDirectOk] at h
    simp [analyzeStep2, h]

theorem analyzeStep2_fail {b : Attempt} (h : analyzeDirectOk b = none) (c : Attempt) :
    analyzeStep2 b c =
      ((analyzeStep3 c).1, .attemptGemini :: .geminiFailed :: (analyzeStep3 c).2) := by
  cases b with
  | raises m => rfl
  | returns raw =>
    simp only [analyzeDirectOk] at h
    simp [analyzeStep2, h]

theorem analyze_chain_cohere_ok {a : Attempt} {j : Json}
    (h : analyzeCohereOk a = some j) (b c : Attempt) :
    analyze_chat_with_fallback a b c = (j, [.attemptCohere]) := by
  cases a with
  | raises m => simp [analyzeCohereOk] at h
  | returns raw =>
    simp only [analyzeCohereOk] at h
    simp [analyze_chat_with_fallback, h]

theorem analyze_chain_cohere_fail {a : Attempt} (h : analyzeCohereOk a = none)
    (b c : Attempt) :
    analyze_chat_with_fallback a b c =
      ((analyzeStep2 b c).1, .attemptCohere :: .cohereFailed :: (analyzeStep2 b c).2) := by
  cases a with
  | raises m => rfl
  | returns raw =>
    simp only [analyzeCohereOk] at h
    simp [analyze_chat_with_fallback, h]

theorem generateStep3_ok {c : Attempt} {t : List Char} (h : genTailOk c = some t) :
    generateStep3 c = (t, [.attemptCohere]) := by
  cases c with
  | raises m => simp [genTailOk] at h
  | returns raw =>
    simp only [genTailOk, Option.some.injEq] at h
    simp [generateStep3, h]

theorem generateStep3_fail {c : Attempt} (h : genTailOk c = none) :
    generateStep3 c = (genSentinel, [.attemptCohere, .allFailed]) := by
  cases c with
  | raises m => rfl
  | returns raw => simp [genTailOk] at h

theorem generateStep2_ok {b : Attempt} {t : List Char} (h : genTailOk b = some t)
    (c : Attempt) : generateStep2 b c = (t, [.attemptGroq]) := by
  cases b with
  | raises m => simp [genTailOk] at h
  | returns raw =>
    simp only [genTailOk, Option.some.injEq] at h
    simp [generateStep2, h]

theorem generateStep2_fail {b : Attempt} (h : genTailOk b = none) (c : Attempt) :
    generateStep2 b c =
      ((generateStep3 c).1, .attemptGroq :: .groqFailed :: (generateStep3 c).2) := by
  cases b with
  | raises m => rfl
  | returns raw => simp [genTailOk] at h

theorem gen_chain_gemini_ok {a : Attempt} {t : List Char}
    (h : genGeminiOk a = some t) (b c : Attempt) :
    generate_single_chat_with_fallback a b c = (t, [.attemptGemini]) := by
  cases a with
  | raises m => simp [genGeminiOk] at h
  | returns raw =>
    by_cases he : raw.isEmpty
    · simp [genGeminiOk, he] at h
    · simp [genGeminiOk, he] at h
      simp [generate_single_chat_with_fallback, he, h]

theorem gen_chain_gemini_fail_fst {a : Attempt} (h : genGeminiOk a = none)
    (b c : Attempt) :
    (generate_single_chat_with_fallback a b c).1 = (generateStep2 b c).1 := by
  cases a with
  | raises m => rfl
  | returns raw =>
    by_cases he : raw.isEmpty
    · simp [generate_single_chat_with_fallback, he]
    · simp [genGeminiOk, he] at h

theorem gen_chain_gemini_fail_trace {a : Attempt} (h : genGeminiOk a = none)
    (b c : Attempt) {e : Ev} (he : e ∈ (generate_single_chat_with_fallback a b c).2) :
    e = .attemptGemini ∨ e = .geminiFailed ∨ e ∈ (generateStep2 b c).2 := by
  cases a with
  | raises m =>
    simp only [generate_single_chat_with_fallback, List.mem_cons] at he
    tauto
  | returns raw =>
    by_cases hemp : raw.isEmpty
    · simp only [generate_single_chat_with_fallback, hemp, if_pos, List.mem_cons] at he
      tauto
    · simp [genGeminiOk, hemp] at h

theorem analyzeStep2_trace_gemini (b c : Attempt) :
    Ev.attemptGemini ∈ (analyzeStep2 b c).2 := by
  cases b with
  | raises m => simp [analyzeStep2]
  | returns raw => cases hj : json_loads raw <;> simp [analyzeStep2, hj]

/-- C1: for every input payload, if every provider in the chain fails
(each `Attempt` yields no usable value), the fallback functions return
the fixed sentinels and, being total functions, never raise to the
caller: `analyze_chat_with_fallback` returns exactly
`{"intent": "error", "satisfaction": "neutral", "quality_score": 0,
"agent_mistakes": []}` and `generate_single_chat_with_fallback` returns
exactly the fixed placeholder dialogue string. -/
theorem claim_C1_all_providers_fail_sentinel
    (ca ga gra gg gq gc : Attempt)
    (h1 : analyzeCohereOk ca = none) (h2 : analyzeDirectOk ga = none)
    (h3 : analyzeDirectOk gra = none)
    (h4 : genGeminiOk gg = none) (h5 : genTailOk gq = none)
    (h6 : genTailOk gc = none) :
    (analyze_chat_with_fallback ca ga gra).1 = analyzeSentinel ∧
      (generate_single_chat_with_fallback gg gq gc).1 = genSentinel := by
  constructor
  · rw [analyze_chain_cohere_fail h1]
    simp [analyzeStep2_fail h2, analyzeStep3_fail h3]
  · rw [gen_chain_gemini_fail_fst h4]
    simp [generateStep2_fail h5, generateStep3_fail h6]

theorem claim_C1_witness :
    (analyze_chat_with_fallback (.raises "err") (.raises "err") (.raises "err")).1 =
        analyzeSentinel ∧
      (generate_single_chat_with_fallback (.raises "err") (.raises "err")
        (.raises "err")).1 = genSentinel :=
  claim_C1_all_providers_fail_sentinel _ _ _ _ _ _ rfl rfl rfl rfl rfl rfl

/-- C2: for every input payload and both chains, if the first provider
succeeds the chain returns its value and no later provider is invoked
(its `attempt` event is absent from the trace); and in general if the
first `k` providers fail and provider `k+1` succeeds, the result is
exactly provider `k+1`'s parsed (analysis) or stripped (generation)
output and no later provider is invoked. -/
theorem claim_C2_short_circuit :
    (∀ (a b c : Attempt) (j : Json), analyzeCohereOk a = some j →
        (analyze_chat_with_fallback a b c).1 = j ∧
        Ev.attemptGemini ∉ (analyze_chat_with_fallback a b c).2 ∧
        Ev.attemptGroq ∉ (analyze_chat_with_fallback a b c).2) ∧
    (∀ (a b c : Attempt) (j : Json), analyzeCohereOk a = none →
        analyzeDirectOk b = some j →
        (analyze_chat_with_fallback a b c).1 = j ∧
        Ev.attemptGroq ∉ (analyze_chat_with_fallback a b c).2) ∧
    (∀ (a b c : Attempt) (j : Json), analyzeCohereOk a = none →
        analyzeDirectOk b = none → analyzeDirectOk c = some j →
        (analyze_chat_with_fallback a b c).1 = j) ∧
    (∀ (a b c : Attempt) (t : List Char), genGeminiOk a = some t →
        (generate_single_chat_with_fallback a b c).1 = t ∧
        Ev.attemptGroq ∉ (generate_single_chat_with_fallback a b c).2 ∧
        Ev.attemptCohere ∉ (generate_single_chat_with_fallback a b c).2) ∧
    (∀ (a b c : Attempt) (t : List Char), genGeminiOk a = none →
        genTailOk b = some t →
        (generate_single_chat_with_fallback a b c).1 = t ∧
        Ev.attemptCohere ∉ (generate_single_chat_with_fallback a b c).2) ∧
    (∀ (a b c : Attempt) (t : List Char), genGeminiOk a = none →
        genTailOk b = none → genTailOk c = some t →
        (generate_single_chat_with_fallback a b c).1 = t) := by
  refine ⟨?_, ?_, ?_, ?_, ?_, ?_⟩
  · intro a b c j h
    rw [analyze_chain_cohere_ok h]
    refine ⟨rfl, by simp, by simp⟩
  · intro a b c j h1 h2
    rw [analyze_chain_cohere_fail h1, analyzeStep2_ok h2]
    refine ⟨rfl, by simp⟩
  · intro a b c j h1 h2 h3
    rw [analyze_chain_cohere_fail h1]
    simp [analyzeStep2_fail h2, analyzeStep3_ok h3]
  · intro a b c t h
    rw [gen_chain_gemini_ok h]
    refine ⟨rfl, by simp, by simp⟩
  · intro a b c t h1 h2
    constructor
    · rw [gen_chain_gemini_fail_fst h1, generateStep2_ok h2]
    · intro hmem
      rcases gen_chain_gemini_fail_trace h1 b c hmem with h | h | h
      · exact Ev.noConfusion h
      · exact Ev.noConfusion h
      · rw [generateStep2_ok h2] at h
        simp at h
  · intro a b c t h1 h2 h3
    rw [gen_chain_gemini_fail_fst h1]
    simp [generateStep2_fail h2, generateStep3_ok h3]

theorem claim_C2_witness :
    (analyze_chat_with_fallback (.returns ("\x7b\x7d".toList)) (.raises "e")
          (.raises "e")).1 = Json.jobj [] ∧
      Ev.attemptGemini ∉ (analyze_chat_with_fallback (.returns ("\x7b\x7d".toList))
          (.raises "e") (.raises "e")).2 ∧
      Ev.attemptGroq ∉ (analyze_chat_with_fallback (.returns ("\x7b\x7d".toList))
          (.raises "e") (.raises "e")).2 :=
  claim_C2_short_circuit.1 _ _ _ _ (by decide)

/-- C3 counterexample: the claim's success condition is stricter than
the code's.  Analysis chain: Cohere returning the bare text `"\x7b\x7d"` —
valid JSON but not the five-field analysis record — is returned as a
success with no fallthrough to Gemini.  Generation chain: Groq
returning the empty string is returned as a success (the empty
dialogue) instead of falling through to Cohere. -/
theorem claim_C3_counterexample :
    (analyze_chat_with_fallback (.returns ("\x7b\x7d".toList)) (.raises "error")
          (.raises "error")).1 = Json.jobj [] ∧
      Ev.attemptGemini ∉ (analyze_chat_with_fallback (.returns ("\x7b\x7d".toList))
          (.raises "error") (.raises "error")).2 ∧
      (generate_single_chat_with_fallback (.raises "error") (.returns [])
          (.raises "error")).1 = [] ∧
      Ev.attemptCohere ∉ (generate_single_chat_with_fallback (.raises "error")
          (.returns []) (.raises "error")).2 := by decide

/-- C3 (amended): an attempt counts as a success iff it raises no
exception and: in the analysis chain its output (stripped and
brace-extracted for Cohere) parses as JSON — any JSON value, the
five-field analysis shape is never validated; in the generation chain
the first provider additionally requires non-empty output, while the
second and third providers succeed on any non-raising output, including
the empty string.  A failing attempt falls through to the next
provider. -/
theorem claim_C3_success_condition :
    (∀ (raw : List Char) (b c : Attempt) (j : Json),
        json_loads (braceExtract (pyStrip raw)) = some j →
        (analyze_chat_with_fallback (.returns raw) b c).1 = j) ∧
    (∀ (raw : List Char) (b c : Attempt),
        json_loads (braceExtract (pyStrip raw)) = none →
        (analyze_chat_with_fallback (.returns raw) b c).1 = (analyzeStep2 b c).1 ∧
          Ev.attemptGemini ∈ (analyze_chat_with_fallback (.returns raw) b c).2) ∧
    (∀ (raw : List Char) (b c : Attempt), raw ≠ [] →
        generate_single_chat_with_fallback (.returns raw) b c =
          (pyStrip raw, [.attemptGemini])) ∧
    (∀ b c : Attempt,
        (generate_single_chat_with_fallback (.returns []) b c).1 =
          (generateStep2 b c).1) ∧
    (∀ (raw : List Char) (a c : Attempt), genGeminiOk a = none →
        (generate_single_chat_with_fallback a (.returns raw) c).1 = pyStrip raw) := by
  refine ⟨?_, ?_, ?_, ?_, ?_⟩
  · intro raw b c j h
    rw [analyze_chain_cohere_ok (show analyzeCohereOk (.returns raw) = some j from h)]
  · intro raw b c h
    rw [analyze_chain_cohere_fail (show analyzeCohereOk (.returns raw) = none from h)]
    exact ⟨rfl, List.mem_cons_of_mem _ (List.mem_cons_of_mem _ (analyzeStep2_trace_gemini b c))⟩
  · intro raw b c h
    have he : raw.isEmpty = false := by
      cases raw with
      | nil => exact absurd rfl h
      | cons x xs => rfl
    exact gen_chain_gemini_ok (show genGeminiOk (.returns raw) = some (pyStrip raw) by
      simp [genGeminiOk, he]) b c
  · intro b c
    rfl
  · intro raw a c h
    rw [gen_chain_gemini_fail_fst h]
    rfl

theorem claim_C3_witness :
    (analyze_chat_with_fallback
        (.returns ("ok: \x7b\"a\": 1\x7d".toList)) (.raises "error") (.raises "error")).1 =
      Json.jobj [("a", Json.jint 1)] :=
  claim_C3_success_condition.1 _ _ _ _ (by decide)

/-- C4: the JSON extraction of the analysis chain takes exactly the
substring from the first opening brace to the last closing brace
(inclusive); when either brace is absent the raw text is kept as-is;
and a parse failure of the extracted text only makes the Cohere step
fall through to Gemini — it is not fatal (the chain is a total
function).  -/
theorem claim_C4_brace_extraction :
    (∀ (s : List Char) (i j : Nat), IsFirstIdx '\x7b' s i → IsLastIdx '\x7d' s j →
        braceExtract s = (s.drop i).take (j + 1 - i)) ∧
    (∀ s : List Char, '\x7b' ∉ s ∨ '\x7d' ∉ s → braceExtract s = s) ∧
    (∀ (raw : List Char) (b c : Attempt),
        json_loads (braceExtract (pyStrip raw)) = none →
        (analyze_chat_with_fallback (.returns raw) b c).1 = (analyzeStep2 b c).1 ∧
          Ev.attemptGemini ∈ (analyze_chat_with_fallback (.returns raw) b c).2) := by
  refine ⟨?_, ?_, ?_⟩
  · intro s i j h1 h2
    unfold braceExtract
    rw [pyFind_of_first h1, pyRfind_of_last h2]
  · intro s h
    rcases h with h | h
    · cases h2 : pyRfind '\x7d' s <;>
        simp [braceExtract, pyFind_of_not_mem h, h2]
    · cases h1 : pyFind '\x7b' s <;>
        simp [braceExtract, pyRfind_of_not_mem h, h1]
  · intro raw b c h
    rw [analyze_chain_cohere_fail (show analyzeCohereOk (.returns raw) = none from h)]
    exact ⟨rfl, List.mem_cons_of_mem _ (List.mem_cons_of_mem _ (analyzeStep2_trace_gemini b c))⟩

theorem claim_C4_witness :
    braceExtract ("x\x7by\x7dz".toList) =
        (("x\x7by\x7dz".toList).drop 1).take (3 + 1 - 1) ∧
      braceExtract ("abc".toList) = "abc".toList :=
  ⟨claim_C4_brace_extraction.1 _ 1 3 (by exact ⟨by decide, by decide⟩)
      (by exact ⟨by decide, by decide⟩),
   claim_C4_brace_extraction.2.1 _ (Or.inl (by decide))⟩

theorem analysisOf_sentinel {env : ProviderEnv} {i : Nat}
    (h1 : analyzeCohereOk (env i).1 = none) (h2 : analyzeDirectOk (env i).2.1 = none)
    (h3 : analyzeDirectOk (env i).2.2 = none) :
    analysisOf env i = analyzeSentinel := by
  unfold analysisOf
  rw [analyze_chain_cohere_fail h1]
  simp [analyzeStep2_fail h2, analyzeStep3_fail h3]

theorem enrichFrom_sentinel {env : ProviderEnv}
    (h1 : ∀ i, analyzeCohereOk (env i).1 = none)
    (h2 : ∀ i, analyzeDirectOk (env i).2.1 = none)
    (h3 : ∀ i, analyzeDirectOk (env i).2.2 = none) :
    ∀ (ds : List DialogueRecord) (i : Nat) (r : EnrichedRecord),
      r ∈ enrichFrom env i ds → r.analysis = analyzeSentinel := by
  intro ds
  induction ds with
  | nil => intro i r hr; simp [enrichFrom] at hr
  | cons d rest ih =>
    intro i r hr
    simp only [enrichFrom, List.mem_cons] at hr
    rcases hr with hr | hr
    · rw [hr]
      show analysisOf env i = analyzeSentinel
      exact analysisOf_sentinel (h1 i) (h2 i) (h3 i)
    · exact ih (i + 1) r hr

/-- C5: in both drivers, after item `k` of the loop completes, the
dataset file on disk holds exactly the first `k + 1` processed records
in order — the whole dataset is rewritten after every single item, and
there is exactly one write per item, so interrupting the run between
writes leaves a file holding all items processed so far (file contents
are modelled structurally, so every written document is well-formed by
construction). -/
theorem claim_C5_incremental_persistence
    (env : ProviderEnv) (ds : List DialogueRecord)
    (a0 : Option (List EnrichedRecord)) (g0 : Option (List DialogueRecord))
    (k : Nat) :
    ((analyzerMain env ⟨some ds, a0⟩).writes.length = ds.length) ∧
    (k < ds.length →
      (analyzerMain env ⟨some ds, a0⟩).writes.get? k =
        some (enrichFrom env 0 (ds.take (k + 1)))) ∧
    ((generatorMain env ⟨g0⟩).writes.length = scenarios.length) ∧
    (k < scenarios.length →
      (generatorMain env ⟨g0⟩).writes.get? k =
        some (genRecordsFrom env 0 (scenarios.take (k + 1)))) := by
  refine ⟨?_, ?_, ?_, ?_⟩
  · show (analyzerLoop env 0 ds []).length = ds.length
    exact analyzerLoop_length env ds 0 []
  · intro hk
    show (analyzerLoop env 0 ds []).get? k = _
    rw [analyzerLoop_get? env ds 0 [] k hk]
    simp
  · show ((generatorLoop env 0 scenarios []).1).length = scenarios.length
    exact generatorLoop_length env scenarios 0 []
  · intro hk
    show ((generatorLoop env 0 scenarios []).1).get? k = _
    rw [generatorLoop_get? env scenarios 0 [] k hk]
    simp

theorem claim_C5_witness :
    (analyzerMain envAllFail ⟨some [sampleRecord], none⟩).writes.get? 0 =
        some (enrichFrom envAllFail 0 ([sampleRecord].take (0 + 1))) ∧
      (generatorMain envAllFail ⟨none⟩).writes.get? 0 =
        some (genRecordsFrom envAllFail 0 (scenarios.take (0 + 1))) :=
  ⟨(claim_C5_incremental_persistence envAllFail [sampleRecord] none none 0).2.1
      (by decide),
   (claim_C5_incremental_persistence envAllFail [sampleRecord] none none 0).2.2.2
      (by decide)⟩

/-- C6 counterexample: with an existing enriched output file and a
one-record input dataset (and no fresh-run request — no such flag
exists), the analyzer run does not abort with zero items processed and
does not leave the existing file untouched: the old output is deleted
unconditionally, the item is processed, and the file is overwritten. -/
theorem claim_C6_counterexample :
    (analyzerMain envAllFail ⟨some [sampleRecord], some [oldEnriched]⟩).aborted
        = false ∧
      (analyzerMain envAllFail
          ⟨some [sampleRecord], some [oldEnriched]⟩).writes.length = 1 ∧
      (analyzerMain envAllFail
          ⟨some [sampleRecord], some [oldEnriched]⟩).fs.analyzed ≠
        some [oldEnriched] := by decide

/-- C6 (amended): the analyzer has no fresh-run flag and never aborts
because the output file exists: an existing `analyzed_dataset.json` is
always deleted, the run proceeding exactly as if that file had been
absent; the run aborts if and only if the input `dataset.json` is
missing. -/
theorem claim_C6_no_overwrite_guard (env : ProviderEnv) (fs : AnalyzeFS) :
    analyzerMain env fs = analyzerMain env ⟨fs.dataset, none⟩ ∧
      ((analyzerMain env fs).aborted = true ↔ fs.dataset = none) := by
  constructor
  · rfl
  · cases hd : fs.dataset <;> simp [analyzerMain, hd]

/-- C7 counterexample: an absent primary-provider key surfaces as an
exception inside the first provider's `try` block, not as a pre-flight
abort: the analyzer run processes its item (falling through to Gemini,
as the chain trace shows) and the generator run processes all 20
scenarios. -/
theorem claim_C7_counterexample :
    (analyzerMain envPrimaryKeyMissing ⟨some [sampleRecord], none⟩).aborted
        = false ∧
      (analyzerMain envPrimaryKeyMissing
          ⟨some [sampleRecord], none⟩).writes.length = 1 ∧
      (generatorMain envPrimaryKeyMissing ⟨none⟩).writes.length = 20 ∧
      (analyze_chat_with_fallback (.raises "api_key is None")
          (.returns validAnalysisText) (.raises "error")).2 =
        [.attemptCohere, .cohereFailed, .attemptGemini] := by decide

/-- C7 (amended): neither driver performs a pre-flight credential
check; a missing primary key surfaces as an exception inside the first
provider's `try` block and causes fallthrough to the next provider in
the chain, while the driver continues and processes every item. -/
theorem claim_C7_no_preflight_credential_check
    (env : ProviderEnv) (ds : List DialogueRecord)
    (a0 : Option (List EnrichedRecord))
    (h : ∀ i, ∃ m, (env i).1 = Attempt.raises m) :
    (analyzerMain env ⟨some ds, a0⟩).aborted = false ∧
      (analyzerMain env ⟨some ds, a0⟩).writes.length = ds.length ∧
      (∀ i, analysisOf env i = (analyzeStep2 (env i).2.1 (env i).2.2).1) ∧
      (generatorMain env ⟨none⟩).writes.length = scenarios.length ∧
      (∀ i, dialogueOf env i = (generateStep2 (env i).2.1 (env i).2.2).1) := by
  refine ⟨rfl, ?_, ?_, ?_, ?_⟩
  · show (analyzerLoop env 0 ds []).length = ds.length
    exact analyzerLoop_length env ds 0 []
  · intro i
    rcases h i with ⟨m, hm⟩
    unfold analysisOf
    rw [hm]
    rfl
  · show ((generatorLoop env 0 scenarios []).1).length = scenarios.length
    exact generatorLoop_length env scenarios 0 []
  · intro i
    rcases h i with ⟨m, hm⟩
    unfold dialogueOf
    rw [hm]
    rfl

theorem claim_C7_witness :
    (analyzerMain envPrimaryKeyMissing ⟨some [sampleRecord], none⟩).aborted
        = false ∧
      (generatorMain envPrimaryKeyMissing ⟨none⟩).writes.length =
        scenarios.length :=
  ⟨(claim_C7_no_preflight_credential_check envPrimaryKeyMissing [sampleRecord]
      none (fun _ => ⟨"api_key is None", rfl⟩)).1,
   (claim_C7_no_preflight_credential_check envPrimaryKeyMissing [sampleRecord]
      none (fun _ => ⟨"api_key is None", rfl⟩)).2.2.2.1⟩

/-- C8 counterexample: persisted analysis records are not validated
against the AnalysisResult data model: when all providers fail, the
persisted record carries the sentinel, whose `quality_score` is the
integer 0 — outside the documented range [1,5]. -/
theorem claim_C8_counterexample :
    (analyzerMain envAllFail ⟨some [sampleRecord], none⟩).fs.analyzed =
        some [enrich sampleRecord analyzeSentinel] ∧
      jLookup "quality_score" analyzeSentinel = some (Json.jint 0) ∧
      ¬ (1 ≤ (0 : Int) ∧ (0 : Int) ≤ 5) := by decide

/-- C8 (amended): the analyzer attaches whatever the chain produced,
with no validation layer; the only shape guarantee is the chain's own:
when every provider fails for every item, every persisted record
carries the sentinel, whose `quality_score` is the integer 0 (outside
[1,5]) and whose `agent_mistakes` is the empty list. -/
theorem claim_C8_no_validation
    (env : ProviderEnv) (ds : List DialogueRecord)
    (a0 : Option (List EnrichedRecord)) (hds : ds ≠ [])
    (h1 : ∀ i, analyzeCohereOk (env i).1 = none)
    (h2 : ∀ i, analyzeDirectOk (env i).2.1 = none)
    (h3 : ∀ i, analyzeDirectOk (env i).2.2 = none) :
    (analyzerMain env ⟨some ds, a0⟩).fs.analyzed = some (enrichFrom env 0 ds) ∧
      (∀ r ∈ enrichFrom env 0 ds, r.analysis = analyzeSentinel) ∧
      jLookup "quality_score" analyzeSentinel = some (Json.jint 0) ∧
      jLookup "agent_mistakes" analyzeSentinel = some (Json.jarr []) := by
  refine ⟨?_, ?_, by decide, by decide⟩
  · show (analyzerLoop env 0 ds []).getLast? = _
    rw [analyzerLoop_final env ds hds 0 []]
    simp
  · intro r hr
    exact enrichFrom_sentinel h1 h2 h3 ds 0 r hr

theorem claim_C8_witness :
    (analyzerMain envAllFail ⟨some [sampleRecord], none⟩).fs.analyzed =
        some (enrichFrom envAllFail 0 [sampleRecord]) ∧
      jLookup "quality_score" analyzeSentinel = some (Json.jint 0) :=
  ⟨(claim_C8_no_validation envAllFail [sampleRecord] none (by simp)
      (fun _ => rfl) (fun _ => rfl) (fun _ => rfl)).1,
   (claim_C8_no_validation envAllFail [sampleRecord] none (by simp)
      (fun _ => rfl) (fun _ => rfl) (fun _ => rfl)).2.2.1⟩

/-- C9 counterexample: even when every provider failure carries an
explicit rate-limit signal ("429 Too Many Requests") on every item, the
generator driver's pauses are all exactly the fixed 2-second pacing
sleep — no substantially longer (tens of seconds) sleep occurs. -/
theorem claim_C9_counterexample :
    (generatorMain envRateLimited ⟨none⟩).sleeps = List.replicate 20 2 ∧
      (2 : Nat) < 10 := by decide

/-- C9 (amended): the generator driver performs exactly one fixed
2-second pacing sleep per item, regardless of the providers' outcomes
or of any rate-limit indicator in their error messages; no rate-limit
specific extended sleep exists. -/
theorem claim_C9_fixed_pacing (env : ProviderEnv) (g0 : GenFS) :
    (generatorMain env g0).sleeps = List.replicate scenarios.length 2 := by
  show (generatorLoop env 0 scenarios []).2 = _
  exact generatorLoop_sleeps env scenarios 0 []

/-- C10: the analyzer deletes an existing `analyzed_dataset.json`
before checking whether `dataset.json` exists: when the input is
missing, the run aborts having processed zero items (no writes), yet
the previously completed enriched output has already been destroyed. -/
theorem claim_C10_delete_before_input_check
    (env : ProviderEnv) (old : List EnrichedRecord) :
    analyzerMain env ⟨none, some old⟩ = ⟨⟨none, none⟩, [], true⟩ := rfl
